import Mathlib

/- Shallow embedding of the hyperfy-eliza-client turn pipeline from
   src/client.ts: dynamic output-schema synthesis from the request
   vocabularies, decision parsing, outgoing text composition, the
   background commit/evaluate/dispatch sequence, and agent resolution.
   Machine effects (the HTTP transport, the generative backend, the
   memory store) are abstracted as explicit parameters; the order of
   observable calls is captured as a list of events. -/

/-- JSON-like values exchanged with the generative backend. -/
inductive JValue where
  | null
  | str (s : String)
  | arr (xs : List JValue)
deriving Repr

/-- True on `z.string()`-conformant values. -/
def isJString : JValue → Bool
  | JValue.str _ => true
  | _ => false

/-- True on `z.null()`-conformant values. -/
def isJNull : JValue → Bool
  | JValue.null => true
  | _ => false

/-- The inner `z.union(vocab.map(z.literal))`: accepts exactly the strings
    of the vocabulary. -/
def zvalidateLiterals : List String → JValue → Bool
  | [], _ => false
  | s :: rest, v =>
    (match v with
     | JValue.str t => s == t
     | _ => false) || zvalidateLiterals rest v

/-- One vocabulary-driven field validator of `createHyperfyOutSchema`
    (client.ts lines 151-182): when the vocabulary is non-empty, the union
    of the literal union, any string, and null; otherwise any string or
    null. -/
def vocabFieldValidate (vocab : List String) (v : JValue) : Bool :=
  if vocab.length > 0 then
    zvalidateLiterals vocab v || isJString v || isJNull v
  else
    isJString v || isJNull v

/-- The `say` field validator: `z.string().nullable()`. -/
def sayValidate (v : JValue) : Bool :=
  match v with
  | JValue.str _ => true
  | JValue.null => true
  | JValue.arr _ => false

/-- The `actions` field validator: `z.array(z.string()).nullable()`. -/
def actionsValidate (v : JValue) : Bool :=
  match v with
  | JValue.null => true
  | JValue.arr xs => xs.all isJString
  | JValue.str _ => false

/-- The synthesized object schema, one validator per field. -/
structure OutSchema where
  lookAt : JValue → Bool
  emote : JValue → Bool
  say : JValue → Bool
  actions : JValue → Bool

/-- client.ts lines 145-190: build the output schema from the request
    body's `emotes` and `triggers` (each `body.emotes || []` when
    absent). `lookAt` is constrained by the triggers vocabulary, `emote`
    by the emotes vocabulary. -/
def createHyperfyOutSchema (emotes? triggers? : Option (List String)) : OutSchema :=
  let emotes := emotes?.getD []
  let triggers := triggers?.getD []
  { lookAt := vocabFieldValidate triggers
    emote := vocabFieldValidate emotes
    say := sayValidate
    actions := actionsValidate }

/-- The raw four-field object returned by the generative backend
    (`response.object`). -/
structure JDecision where
  lookAt : JValue
  emote : JValue
  say : JValue
  actions : JValue
deriving Repr

/-- `hyperfyOutSchema.parse` success condition: every field validates. -/
def validateDecision (sch : OutSchema) (d : JDecision) : Bool :=
  sch.lookAt d.lookAt && sch.emote d.emote && sch.say d.say && sch.actions d.actions

/-- The typed decision `hfOut` after a successful parse. -/
structure HfOut where
  lookAt : Option String
  emote : Option String
  say : Option String
  actions : Option (List String)
deriving DecidableEq, Repr

/-- Convert a JSON value to a nullable string (the shape the lookAt,
    emote and say validators admit). -/
def jToOptStr : JValue → Option (Option String)
  | JValue.null => some none
  | JValue.str s => some (some s)
  | JValue.arr _ => none

/-- Convert a JSON array to a string list when every element is a
    string. -/
def jStrList : List JValue → Option (List String)
  | [] => some []
  | x :: xs =>
    match x, jStrList xs with
    | JValue.str s, some rest => some (s :: rest)
    | _, _ => none

/-- Convert a JSON value to a nullable string list (the shape the
    actions validator admits). -/
def jToOptStrList : JValue → Option (Option (List String))
  | JValue.null => some none
  | JValue.arr xs => (jStrList xs).map some
  | JValue.str _ => none

/-- `hyperfyOutSchema.parse(response.object)` (client.ts line 212):
    returns the typed decision on conforming input, nothing otherwise
    (the thrown ZodError). -/
def parseDecision (sch : OutSchema) (d : JDecision) : Option HfOut :=
  if validateDecision sch d then
    match jToOptStr d.lookAt, jToOptStr d.emote, jToOptStr d.say, jToOptStrList d.actions with
    | some l, some e, some s, some a => some (HfOut.mk l e s a)
    | _, _, _, _ => none
  else none

/-- JavaScript string concatenation onto a possibly-null left operand:
    `null + s` coerces to the text "null" followed by s. -/
def jsPlus (t : Option String) (s : String) : Option String :=
  match t with
  | none => some ("null" ++ s)
  | some u => some (u ++ s)

/-- client.ts lines 224-239: compose `contentObj.text`. Starts from
    `say`; when lookAt or emote is present appends ". Then I ", then the
    gaze text and, when an emote follows, " and "; the emote branch then
    ASSIGNS (not appends) "emoted " plus the emote, discarding whatever
    was composed before. -/
def composeText (o : HfOut) : Option String :=
  let text0 := o.say
  if o.lookAt.isSome || o.emote.isSome then
    let text1 := jsPlus text0 ". Then I "
    let text2 :=
      match o.lookAt with
      | some l =>
        match o.emote with
        | some _ => jsPlus (jsPlus text1 ("looked at " ++ l)) " and "
        | none => jsPlus text1 ("looked at " ++ l)
      | none => text1
    match o.emote with
    | some e => some ("emoted " ++ e)
    | none => text2
  else
    text0

/-- client.ts lines 241-244: `contentObj.action = hfOut.actions[0]` when
    actions is non-null; indexing an empty array yields undefined. -/
def actionTag (o : HfOut) : Option String :=
  match o.actions with
  | none => none
  | some xs => xs.head?

/-- The persisted record content: the composed text and the single
    recorded action tag (the only fields the handler sets on
    `contentObj`). -/
structure ContentObj where
  text : Option String
  action : Option String
deriving DecidableEq, Repr

/-- Build the record content for a decision. -/
def mkContentObj (o : HfOut) : ContentObj :=
  { text := composeText o, action := actionTag o }

/-- Sender identity of a created record: the agent itself
    (`userId: runtime.agentId`) or the fixed world identity
    (`stringToUuid("hyperfy")`). -/
inductive Sender where
  | agent
  | world
deriving DecidableEq, Repr

/-- Observable calls of one turn, in order: the `generateObject` backend
    call, a successful `messageManager.createMemory` with a sender and
    the stored content, the `runtime.evaluate` call, and a
    `processActions` dispatch of a behavior tag. -/
inductive Event where
  | backendCall
  | createRecord (sender : Sender) (content : ContentObj)
  | evaluate
  | dispatch (tag : String)
deriving DecidableEq, Repr

/-- client.ts lines 272-285: `if (contentObj.action)` — dispatch happens
    only when the tag is set and truthy (the empty string is falsy in
    JavaScript). -/
def dispatchEvents (a : Option String) : List Event :=
  match a with
  | some t => if t = "" then [] else [Event.dispatch t]
  | none => []

/-- client.ts lines 222-289, the background promise: `createMemory` on
    the outgoing record, then (inside its continuation) construct the
    incoming memory object and call `evaluate` on it, then (inside the
    evaluation continuation) dispatch the recorded action tag. When
    persistence fails its continuation never runs; when evaluation fails
    the dispatch continuation never runs. No second `createMemory` call
    exists, so no incoming record is ever durably created. -/
def commitEvents (o : HfOut) (persistOk evalOk : Bool) : List Event :=
  if persistOk then
    Event.createRecord Sender.agent (mkContentObj o) ::
    Event.evaluate ::
    (if evalOk then dispatchEvents (mkContentObj o).action else [])
  else
    []

/-- A registered agent runtime: its identifier and its character
    name. -/
structure Agent where
  agentId : String
  name : String
deriving DecidableEq, Repr

/-- JavaScript `toLowerCase()`, modelled character by character. -/
def jsToLowerCase (s : String) : String := String.mk (s.data.map Char.toLower)

/-- client.ts lines 80-90: `this.agents.get(agentId)`, then on failure a
    case-insensitive search over the registered character names. -/
def resolveAgent (agents : List Agent) (ref : String) : Option Agent :=
  match agents.find? (fun a => a.agentId == ref) with
  | some a => some a
  | none => agents.find? (fun a => jsToLowerCase a.name == jsToLowerCase ref)

/-- The request body fields the handler reads: `roomId` (optional),
    `emotes` and `triggers` (present or absent arrays). -/
structure RequestBody where
  roomId : Option String
  emotes : Option (List String)
  triggers : Option (List String)
deriving DecidableEq, Repr

/-- One inbound request: the `:agentIdOrName` route parameter and the
    body. -/
structure TurnInput where
  agentRef : String
  body : RequestBody
deriving DecidableEq, Repr

/-- Outcome of one turn as seen by the HTTP caller. -/
inductive TurnResult where
  | notFound
  | missingVocabulary
  | backendUnavailable
  | schemaViolation
  | ok (out : HfOut)
deriving DecidableEq, Repr

/-- The POST handler (client.ts lines 76-291) for one turn. Agent
    resolution happens first; reading `body.emotes.join` and
    `body.triggers.join` throws on an absent array before the backend is
    invoked; then the backend is called (`backend` is its returned
    object, nothing on failure), the result is parsed against the
    synthesized schema, and on success the background commit sequence
    runs while `res.json(hfOut)` echoes the decision. The event list
    records the observable calls in order. -/
def runTurn (agents : List Agent) (input : TurnInput) (backend : Option JDecision)
    (persistOk evalOk : Bool) : TurnResult × List Event :=
  match resolveAgent agents input.agentRef with
  | none => (TurnResult.notFound, [])
  | some _ =>
    match input.body.emotes with
    | none => (TurnResult.missingVocabulary, [])
    | some _ =>
      match input.body.triggers with
      | none => (TurnResult.missingVocabulary, [])
      | some _ =>
        let sch := createHyperfyOutSchema input.body.emotes input.body.triggers
        match backend with
        | none => (TurnResult.backendUnavailable, [Event.backendCall])
        | some obj =>
          match parseDecision sch obj with
          | none => (TurnResult.schemaViolation, [Event.backendCall])
          | some hfOut =>
            (TurnResult.ok hfOut, Event.backendCall :: commitEvents hfOut persistOk evalOk)

/-- Is an event a successful record creation? -/
def isRecordCreate (ev : Event) : Bool :=
  match ev with
  | Event.createRecord _ _ => true
  | _ => false

/-- Is an event a successful incoming (world-sender) record creation? -/
def isIncomingCreate (ev : Event) : Bool :=
  match ev with
  | Event.createRecord Sender.world _ => true
  | _ => false

/-- Is an event a backend invocation? -/
def isBackendCall (ev : Event) : Bool :=
  match ev with
  | Event.backendCall => true
  | _ => false

/-- Number of records durably created during a turn. -/
def countRecords (tr : List Event) : Nat := (tr.filter isRecordCreate).length

/-- Number of incoming records durably created during a turn. -/
def countIncoming (tr : List Event) : Nat := (tr.filter isIncomingCreate).length

/-- Number of backend invocations during a turn. -/
def countBackendCalls (tr : List Event) : Nat := (tr.filter isBackendCall).length

/-- Any turn trace is empty, the lone backend call, or a backend call
    followed by the commit sequence of some parsed decision. -/
lemma runTurn_trace_cases (agents : List Agent) (input : TurnInput)
    (backend : Option JDecision) (p e : Bool) :
    (runTurn agents input backend p e).2 = [] ∨
    (runTurn agents input backend p e).2 = [Event.backendCall] ∨
    ∃ o, (runTurn agents input backend p e).2 = Event.backendCall :: commitEvents o p e := by
  unfold runTurn
  cases h1 : resolveAgent agents input.agentRef with
  | none => simp
  | some a =>
    cases h2 : input.body.emotes with
    | none => simp
    | some em =>
      cases h3 : input.body.triggers with
      | none => simp
      | some tg =>
        cases h4 : backend with
        | none => simp
        | some obj =>
          cases h5 : parseDecision (createHyperfyOutSchema (some em) (some tg)) obj with
          | none => simp [h5]
          | some o => exact Or.inr (Or.inr ⟨o, by simp [h5]⟩)

/-- No incoming (world-sender) record is ever part of a commit
    sequence. -/
lemma countIncoming_commitEvents (o : HfOut) (p e : Bool) :
    countIncoming (commitEvents o p e) = 0 := by
  unfold commitEvents countIncoming dispatchEvents
  cases p <;> cases e <;> simp [isIncomingCreate]
  cases h : (mkContentObj o).action with
  | none => simp
  | some t =>
    by_cases ht : t = "" <;> simp [ht, isIncomingCreate]

/-- A dispatch event inside a commit sequence forces successful
    persistence and evaluation, and its tag is the recorded, non-empty
    action tag. -/
lemma dispatch_mem_commitEvents (o : HfOut) (p e : Bool) (t : String)
    (h : Event.dispatch t ∈ commitEvents o p e) :
    p = true ∧ e = true ∧ (mkContentObj o).action = some t ∧ t ≠ "" := by
  cases p with
  | false => simp [commitEvents] at h
  | true =>
    cases e with
    | false => simp [commitEvents] at h
    | true =>
      simp [commitEvents] at h
      cases ha : (mkContentObj o).action with
      | none => rw [ha] at h; simp [dispatchEvents] at h
      | some x =>
        rw [ha] at h
        by_cases hx : x = ""
        · simp [dispatchEvents, hx] at h
        · simp [dispatchEvents, hx] at h
          subst h
          exact ⟨rfl, rfl, rfl, hx⟩

/-- C6: for every pair of string vocabularies, schema synthesis is total
    (it is a Lean function, mirroring that the source never throws), the
    synthesized validator accepts the all-null decision object, and — because
    the lookAt union always contains the any-string branch — for every
    string s (vocabulary member or not) a decision with lookAt = s also
    validates. -/
theorem c6_schema_accepts (emotes triggers : List String) :
    validateDecision (createHyperfyOutSchema (some emotes) (some triggers))
      (JDecision.mk JValue.null JValue.null JValue.null JValue.null) = true ∧
    ∀ s : String,
      validateDecision (createHyperfyOutSchema (some emotes) (some triggers))
        (JDecision.mk (JValue.str s) JValue.null JValue.null JValue.null) = true := by
  refine ⟨?_, fun s => ?_⟩ <;>
    simp [validateDecision, createHyperfyOutSchema, vocabFieldValidate,
      sayValidate, actionsValidate, isJString, isJNull]

/-- C9: whenever the validated decision carries a non-null emote, the
    composed outgoing text is exactly "emoted " followed by the emote —
    the emote branch assigns over, rather than appends to, whatever say
    and lookAt produced. -/
theorem c9_emote_overwrites (o : HfOut) (e : String) (h : o.emote = some e) :
    composeText o = some ("emoted " ++ e) := by
  rcases o with ⟨l, em, s, a⟩
  simp only at h
  subst h
  cases l <;> simp [composeText]

/-- C9 witness at a concrete decision with all three of say, lookAt and
    emote set. -/
theorem c9_emote_overwrites_witness :
    composeText (HfOut.mk (some "player1") (some "wave") (some "hi") none) =
      some ("emoted " ++ "wave") :=
  c9_emote_overwrites (HfOut.mk (some "player1") (some "wave") (some "hi") none) "wave" rfl

/-- C10: a decision whose actions field is the empty sequence records no
    action tag, produces the same record and the same commit sequence as
    the null-actions decision, and never dispatches. -/
theorem c10_empty_actions (o : HfOut) (p e : Bool) (t : String)
    (h : o.actions = some []) :
    mkContentObj o = mkContentObj { o with actions := none } ∧
    commitEvents o p e = commitEvents { o with actions := none } p e ∧
    Event.dispatch t ∉ commitEvents o p e := by
  rcases o with ⟨l, em, s, a⟩
  simp only at h
  subst h
  refine ⟨?_, ?_, ?_⟩
  · simp [mkContentObj, actionTag, composeText]
  · simp [commitEvents, mkContentObj, actionTag, composeText]
  · intro hmem
    have hh := dispatch_mem_commitEvents _ p e t hmem
    have hcontra := hh.2.2.1
    simp [mkContentObj, actionTag] at hcontra

/-- C10 witness at a concrete decision with an empty actions array. -/
theorem c10_empty_actions_witness :
    mkContentObj (HfOut.mk none none (some "yo") (some [])) =
      mkContentObj (HfOut.mk none none (some "yo") none) ∧
    commitEvents (HfOut.mk none none (some "yo") (some [])) true true =
      commitEvents (HfOut.mk none none (some "yo") none) true true ∧
    Event.dispatch "jump" ∉ commitEvents (HfOut.mk none none (some "yo") (some [])) true true :=
  c10_empty_actions (HfOut.mk none none (some "yo") (some [])) true true "jump" rfl

/-- C7 counterexample: two decisions that differ only in the tail of
    their actions sequence produce identical records, so the remaining
    elements are NOT preserved in the record, contrary to the claim. -/
theorem c7_counterexample :
    mkContentObj (HfOut.mk none none (some "x") (some ["a", "b"])) =
      mkContentObj (HfOut.mk none none (some "x") (some ["a", "c"])) ∧
    (["a", "b"] : List String) ≠ ["a", "c"] := by
  decide

/-- C7 amended: for a non-null non-empty actions sequence, only the
    first element is recorded as the record's action tag and only it can
    be dispatched; the record is independent of the remaining elements
    (they are not preserved in it, only echoed in the HTTP response). -/
theorem c7_first_action_only (o : HfOut) (x : String) (xs : List String)
    (p e : Bool) (t : String) (h : o.actions = some (x :: xs)) :
    mkContentObj o = ContentObj.mk (composeText o) (some x) ∧
    mkContentObj o = mkContentObj { o with actions := some [x] } ∧
    (Event.dispatch t ∈ commitEvents o p e → t = x) := by
  rcases o with ⟨l, em, s, a⟩
  simp only at h
  subst h
  refine ⟨?_, ?_, ?_⟩
  · simp [mkContentObj, actionTag]
  · simp [mkContentObj, actionTag, composeText]
  · intro hmem
    have hh := dispatch_mem_commitEvents _ p e t hmem
    have hfirst := hh.2.2.1
    simp [mkContentObj, actionTag] at hfirst
    exact hfirst.symm

/-- C7 witness at a concrete decision whose actions sequence has two
    elements. -/
theorem c7_first_action_only_witness :
    mkContentObj (HfOut.mk none none (some "go") (some ["dance", "sit"])) =
      ContentObj.mk (composeText (HfOut.mk none none (some "go") (some ["dance", "sit"]))) (some "dance") ∧
    mkContentObj (HfOut.mk none none (some "go") (some ["dance", "sit"])) =
      mkContentObj (HfOut.mk none none (some "go") (some ["dance"])) ∧
    (Event.dispatch "dance" ∈
        commitEvents (HfOut.mk none none (some "go") (some ["dance", "sit"])) true true →
      "dance" = "dance") :=
  c7_first_action_only (HfOut.mk none none (some "go") (some ["dance", "sit"]))
    "dance" ["sit"] true true "dance" rfl

/-- C1 counterexample: at the scenario decision {lookAt:"player1",
    emote:"wave", say:"hi", actions:null} the persisted text is NOT the
    claimed "hi. Then I looked at player1 and " — the emote branch
    overwrites it. -/
theorem c1_counterexample :
    (mkContentObj (HfOut.mk (some "player1") (some "wave") (some "hi") none)).text ≠
      some "hi. Then I looked at player1 and " := by
  decide

/-- C1 amended: in scenario A the response echoes the four backend
    fields and exactly one outgoing record is created, but its composed
    text is "emoted wave" (the emote assignment overwrites the text
    composed from say and lookAt). -/
theorem c1_scenario_a :
    runTurn [Agent.mk "agent-1" "Eliza"]
      (TurnInput.mk "agent-1"
        (RequestBody.mk (some "hyperfy") (some ["wave", "laugh"]) (some ["player1"])))
      (some (JDecision.mk (JValue.str "player1") (JValue.str "wave") (JValue.str "hi") JValue.null))
      true true =
    (TurnResult.ok (HfOut.mk (some "player1") (some "wave") (some "hi") none),
     [Event.backendCall,
      Event.createRecord Sender.agent (ContentObj.mk (some "emoted wave") none),
      Event.evaluate]) := by
  decide

/-- C2 counterexample: a turn whose validated decision has all four
    fields null still creates an outgoing record — the record count of
    its trace is not zero. -/
theorem c2_counterexample :
    (runTurn [Agent.mk "a1" "Ava"] (TurnInput.mk "a1" (RequestBody.mk none (some []) (some [])))
        (some (JDecision.mk JValue.null JValue.null JValue.null JValue.null)) true true).1 =
      TurnResult.ok (HfOut.mk none none none none) ∧
    countRecords
      (runTurn [Agent.mk "a1" "Ava"] (TurnInput.mk "a1" (RequestBody.mk none (some []) (some [])))
        (some (JDecision.mk JValue.null JValue.null JValue.null JValue.null)) true true).2 ≠ 0 := by
  decide

/-- C2 amended: the handler performs no stay-silent classification.
    Whenever the backend object parses to the all-null decision the turn
    still commits: its trace is the backend call, one outgoing record
    with null text and no action tag, and the evaluation call (and no
    dispatch). -/
theorem c2_all_null_still_commits (agents : List Agent) (input : TurnInput) (obj : JDecision)
    (e : Bool) (a : Agent) (em tg : List String)
    (hr : resolveAgent agents input.agentRef = some a)
    (he : input.body.emotes = some em)
    (ht : input.body.triggers = some tg)
    (hp : parseDecision (createHyperfyOutSchema (some em) (some tg)) obj =
      some (HfOut.mk none none none none)) :
    runTurn agents input (some obj) true e =
      (TurnResult.ok (HfOut.mk none none none none),
       [Event.backendCall, Event.createRecord Sender.agent (ContentObj.mk none none),
        Event.evaluate]) := by
  unfold runTurn
  rw [hr, he, ht]
  simp [hp, commitEvents, mkContentObj, composeText, actionTag, dispatchEvents]

/-- C2 amended witness at a concrete all-null turn. -/
theorem c2_all_null_still_commits_witness :
    runTurn [Agent.mk "a1" "Ava"] (TurnInput.mk "a1" (RequestBody.mk none (some []) (some [])))
      (some (JDecision.mk JValue.null JValue.null JValue.null JValue.null)) true true =
      (TurnResult.ok (HfOut.mk none none none none),
       [Event.backendCall, Event.createRecord Sender.agent (ContentObj.mk none none),
        Event.evaluate]) :=
  c2_all_null_still_commits _ _ _ _ (Agent.mk "a1" "Ava") [] [] rfl rfl rfl (by decide)

/-- C3: when an agent resolves but the body omits the emotes or the
    triggers array, the turn fails as the missing-vocabulary error with
    an empty trace, so in particular the backend call count is zero. -/
theorem c3_missing_vocab_fails_fast (agents : List Agent) (ref : String) (body : RequestBody)
    (backend : Option JDecision) (p e : Bool)
    (hagent : (resolveAgent agents ref).isSome = true)
    (hmiss : body.emotes = none ∨ body.triggers = none) :
    runTurn agents (TurnInput.mk ref body) backend p e = (TurnResult.missingVocabulary, []) ∧
    countBackendCalls (runTurn agents (TurnInput.mk ref body) backend p e).2 = 0 := by
  obtain ⟨a, ha⟩ := Option.isSome_iff_exists.mp hagent
  have hmain : runTurn agents (TurnInput.mk ref body) backend p e =
      (TurnResult.missingVocabulary, []) := by
    unfold runTurn
    rcases hmiss with h | h
    · simp [ha, h]
    · cases hemo : body.emotes with
      | none => simp [ha, hemo]
      | some em => simp [ha, hemo, h]
  exact ⟨hmain, by rw [hmain]; simp [countBackendCalls]⟩

/-- C3 witness: a request without an emotes array, against a registered
    agent, fails fast with zero backend calls. -/
theorem c3_missing_vocab_witness :
    runTurn [Agent.mk "a3" "Cal"] (TurnInput.mk "a3" (RequestBody.mk none none (some ["t1"])))
      (some (JDecision.mk JValue.null JValue.null JValue.null JValue.null)) true true =
      (TurnResult.missingVocabulary, []) ∧
    countBackendCalls
      (runTurn [Agent.mk "a3" "Cal"] (TurnInput.mk "a3" (RequestBody.mk none none (some ["t1"])))
        (some (JDecision.mk JValue.null JValue.null JValue.null JValue.null)) true true).2 = 0 :=
  c3_missing_vocab_fails_fast _ _ _ _ _ _ (by decide) (Or.inl rfl)

/-- C8: exact identifier lookup wins first; with no exact match the
    case-insensitive name match is used; and when neither resolves the
    turn ends as not-found with an empty trace (no backend call, no
    other work). -/
theorem c8_agent_resolution (agents : List Agent) (ref : String) (body : RequestBody)
    (backend : Option JDecision) (p e : Bool) :
    (∀ a ∈ agents, a.agentId = ref →
      ∃ b, resolveAgent agents ref = some b ∧ b.agentId = ref) ∧
    ((∀ a ∈ agents, a.agentId ≠ ref) → ∀ a ∈ agents, jsToLowerCase a.name = jsToLowerCase ref →
      ∃ b, resolveAgent agents ref = some b ∧ jsToLowerCase b.name = jsToLowerCase ref) ∧
    (resolveAgent agents ref = none →
      runTurn agents (TurnInput.mk ref body) backend p e = (TurnResult.notFound, [])) := by
  refine ⟨?_, ?_, ?_⟩
  · intro a ha haid
    have hsome : (agents.find? (fun x => x.agentId == ref)).isSome := by
      rw [List.find?_isSome]
      exact ⟨a, ha, by simp [haid]⟩
    obtain ⟨b, hb⟩ := Option.isSome_iff_exists.mp hsome
    have hbid : b.agentId = ref := by simpa using List.find?_some hb
    exact ⟨b, by unfold resolveAgent; rw [hb], hbid⟩
  · intro hno a ha hname
    have hnone : agents.find? (fun x => x.agentId == ref) = none := by
      rw [List.find?_eq_none]
      intro x hx
      simpa using hno x hx
    have hsome : (agents.find? (fun x => jsToLowerCase x.name == jsToLowerCase ref)).isSome := by
      rw [List.find?_isSome]
      exact ⟨a, ha, by simp [hname]⟩
    obtain ⟨b, hb⟩ := Option.isSome_iff_exists.mp hsome
    have hbname : jsToLowerCase b.name = jsToLowerCase ref := by simpa using List.find?_some hb
    refine ⟨b, ?_, hbname⟩
    unfold resolveAgent
    rw [hnone, hb]
  · intro hnone
    unfold runTurn
    simp [hnone]

/-- C8 witness: scenario C, the unknown identifier "nonexistent" against
    one registered agent yields not-found with an empty trace. -/
theorem c8_agent_resolution_witness :
    runTurn [Agent.mk "id-1" "Ava"]
      (TurnInput.mk "nonexistent" (RequestBody.mk none (some []) (some [])))
      (some (JDecision.mk JValue.null JValue.null JValue.null JValue.null)) true true =
      (TurnResult.notFound, []) :=
  (c8_agent_resolution [Agent.mk "id-1" "Ava"] "nonexistent"
    (RequestBody.mk none (some []) (some []))
    (some (JDecision.mk JValue.null JValue.null JValue.null JValue.null)) true true).2.2
    (by decide)

/-- C4 counterexample: a successful non-silent turn (say "hello")
    creates exactly one record — the outgoing one — and zero incoming
    (world-sender) records: the handler constructs the incoming memory
    object but never persists it. -/
theorem c4_counterexample :
    (runTurn [Agent.mk "a2" "Bea"] (TurnInput.mk "a2" (RequestBody.mk (some "room1") (some []) (some [])))
        (some (JDecision.mk JValue.null JValue.null (JValue.str "hello") JValue.null)) true true).1 =
      TurnResult.ok (HfOut.mk none none (some "hello") none) ∧
    countRecords
      (runTurn [Agent.mk "a2" "Bea"] (TurnInput.mk "a2" (RequestBody.mk (some "room1") (some []) (some [])))
        (some (JDecision.mk JValue.null JValue.null (JValue.str "hello") JValue.null)) true true).2 = 1 ∧
    countIncoming
      (runTurn [Agent.mk "a2" "Bea"] (TurnInput.mk "a2" (RequestBody.mk (some "room1") (some []) (some [])))
        (some (JDecision.mk JValue.null JValue.null (JValue.str "hello") JValue.null)) true true).2 = 0 := by
  decide

/-- C4 amended: no turn ever durably creates an incoming (world-sender)
    ConversationRecord; the incoming stimulus is only wrapped in a memory
    object handed to evaluation, and that evaluation call happens only
    after the outgoing record has been created. -/
theorem c4_no_incoming_record (agents : List Agent) (input : TurnInput)
    (backend : Option JDecision) (p e : Bool)
    (h : Event.evaluate ∈ (runTurn agents input backend p e).2) :
    countIncoming (runTurn agents input backend p e).2 = 0 ∧
    ∃ pre post c,
      (runTurn agents input backend p e).2 =
        pre ++ Event.createRecord Sender.agent c :: post ∧
      Event.evaluate ∈ post := by
  rcases runTurn_trace_cases agents input backend p e with h0 | h0 | ⟨o, h0⟩
  · rw [h0] at h; simp at h
  · rw [h0] at h; simp at h
  · rw [h0] at h ⊢
    constructor
    · have h1 := countIncoming_commitEvents o p e
      unfold countIncoming at h1 ⊢
      simp [isIncomingCreate, h1]
    · cases hp : p with
      | false =>
        rw [hp] at h
        simp [commitEvents] at h
      | true =>
        refine ⟨[Event.backendCall],
          Event.evaluate :: (if e then dispatchEvents (mkContentObj o).action else []),
          mkContentObj o, ?_, ?_⟩
        · simp [commitEvents]
        · simp

/-- C4 amended witness at a concrete successful turn. -/
theorem c4_no_incoming_record_witness :
    countIncoming
      (runTurn [Agent.mk "a4" "Dee"] (TurnInput.mk "a4" (RequestBody.mk none (some []) (some [])))
        (some (JDecision.mk JValue.null JValue.null (JValue.str "hey") JValue.null)) true true).2 = 0 ∧
    ∃ pre post c,
      (runTurn [Agent.mk "a4" "Dee"] (TurnInput.mk "a4" (RequestBody.mk none (some []) (some [])))
        (some (JDecision.mk JValue.null JValue.null (JValue.str "hey") JValue.null)) true true).2 =
        pre ++ Event.createRecord Sender.agent c :: post ∧
      Event.evaluate ∈ post :=
  c4_no_incoming_record _ _ _ _ _ (by decide)

/-- C5: a behavior dispatch can only occur when persistence of the
    outgoing record succeeded, and in the trace it occurs strictly after
    the outgoing record creation; when persistence fails no dispatch
    happens at all. -/
theorem c5_record_before_dispatch (agents : List Agent) (input : TurnInput)
    (backend : Option JDecision) (p e : Bool) (t : String)
    (h : Event.dispatch t ∈ (runTurn agents input backend p e).2) :
    p = true ∧ ∃ pre post c,
      (runTurn agents input backend p e).2 =
        pre ++ Event.createRecord Sender.agent c :: post ∧
      Event.dispatch t ∈ post := by
  rcases runTurn_trace_cases agents input backend p e with h0 | h0 | ⟨o, h0⟩
  · rw [h0] at h; simp at h
  · rw [h0] at h; simp at h
  · rw [h0] at h ⊢
    have hmem : Event.dispatch t ∈ commitEvents o p e := by simpa using h
    have hh := dispatch_mem_commitEvents o p e t hmem
    refine ⟨hh.1, [Event.backendCall],
      Event.evaluate :: (if e then dispatchEvents (mkContentObj o).action else []),
      mkContentObj o, ?_, ?_⟩
    · rw [hh.1]; simp [commitEvents]
    · simp [hh.2.1, dispatchEvents, hh.2.2.1, hh.2.2.2]

/-- C5 witness at a concrete turn whose decision names the behavior
    "jump". -/
theorem c5_record_before_dispatch_witness :
    (true = true) ∧ ∃ pre post c,
      (runTurn [Agent.mk "agent-1" "Eliza"]
        (TurnInput.mk "agent-1" (RequestBody.mk (some "hyperfy") (some ["wave"]) (some ["player1"])))
        (some (JDecision.mk JValue.null JValue.null (JValue.str "ok") (JValue.arr [JValue.str "jump"])))
        true true).2 =
        pre ++ Event.createRecord Sender.agent c :: post ∧
      Event.dispatch "jump" ∈ post :=
  c5_record_before_dispatch _ _ _ _ _ _ (by decide)
